import Mathlib

/-!
Shallow embedding of the nphysics bodies-bodies collision detector
(`src/detection/collision/bodies_bodies.rs`) and of the shipped 3D
primitives demo configuration (`examples/primitives3d.rs`).

Scalars are modelled as rationals, geometries, transforms, rays and
contacts as opaque identifiers, and the narrow-phase update and the
shape ray cast as function parameters: the claims under verification
only depend on how the detector routes data through them.
-/

namespace NPhysics

/-- Modelled from the spec: a *Contact* is opaque data carried by a
constraint (world-space points, normal, depth); its internals are not
needed here, so it is an identifier. `clone` is the identity. -/
abbrev Contact := Nat

/-- Opaque identifier of a geometry (plane | ball | box | cone | cylinder). -/
abbrev GeomId := Nat

/-- Opaque identifier of a rigid transform. -/
abbrev TransformId := Nat

/-- Opaque identifier of a ray. -/
abbrev RayId := Nat

/-- Scalars of the simulation (the `N` type parameter), modelled as rationals. -/
abbrev Scalar := ℚ

/-- Modelled from the spec: a rigid body's `kind` is *Static* (infinite
mass, never moves) or *Dynamic* (the `object` module is not under `src/`). -/
inductive BodyKind where
  | Static
  | Dynamic
deriving DecidableEq

/-- Modelled from the spec: the fields of a RigidBody the detector reads:
its geometry (`geom()`), its pose (`transform_ref()`) and its kind. -/
structure RigidBody where
  geom : GeomId
  transform : TransformId
  kind : BodyKind
deriving DecidableEq

/-- Modelled from the spec: a Static body never moves and never
accumulates impulse, so `can_move` holds exactly for Dynamic bodies
(the `object` module is not under `src/`). -/
def RigidBody.can_move (rb : RigidBody) : Bool :=
  rb.kind == BodyKind.Dynamic

/-- Modelled from the spec: `Body` is a variant with two shapes,
*RigidBody* and *SoftBody*; the soft-body payload is opaque here. -/
inductive Body where
  | RB (rb : RigidBody)
  | SB (sb : Nat)
deriving DecidableEq

/-- A `@mut Body` pointer: an allocation address plus the pointee. -/
structure BodyPtr where
  addr : Nat
  body : Body
deriving DecidableEq

/-- Modelled from the spec: `borrow::ref_eq` compares the two references
by address. -/
def ref_eq (a b : BodyPtr) : Bool :=
  a.addr == b.addr

/-- Modelled from the spec: `to_rigid_body_or_fail` yields the rigid body
or halts fatally on a SoftBody (the `object` module is not under `src/`);
the fatal branch is `none`. -/
def Body.to_rigid_body_or_fail : Body → Option RigidBody
  | .RB rb => some rb
  | .SB _ => none

/-- Modelled from the spec: the GJK/EPA narrow-phase workspace `GeomGeom`
as the detector observes it: the two geometries it was built for and the
contacts it currently holds. -/
structure GeomGeom where
  g1 : GeomId
  g2 : GeomId
  contacts : List Contact
deriving DecidableEq

/-- Modelled from the spec: `GeomGeom::new(g1, g2, simplex)` builds a
fresh workspace holding no contact yet. -/
def GeomGeom.new (g1 g2 : GeomId) : GeomGeom :=
  { g1 := g1, g2 := g2, contacts := [] }

/-- Modelled from the spec: `colls(collector)` pushes the contacts the
workspace currently holds onto the collector. -/
def GeomGeom.colls (d : GeomGeom) (collector : List Contact) : List Contact :=
  collector ++ d.contacts

/-- Modelled from the spec: the narrow-phase `update(transform_a, shape_a,
transform_b, shape_b)` recomputes the workspace; it is kept abstract as a
function parameter. -/
abbrev NarrowUpdate :=
  TransformId → GeomId → TransformId → GeomId → GeomGeom → GeomGeom

/-- Modelled from the spec: the shape ray cast
`toi_with_transform_and_ray(transform, ray)`, kept abstract as a function
parameter returning the scalar `t` along the ray, if hit. -/
abbrev ToiFn := GeomId → TransformId → RayId → Option Scalar

/-- The per-pair detector state: a GJK/EPA workspace or the
`Unsuported` (sic) marker. -/
inductive PairwiseDetector where
  | GG (d : GeomGeom)
  | Unsuported
deriving DecidableEq

/-- The dispatcher; its only field is the shared Johnson simplex, of which
the detector observes nothing but the ambient dimension. -/
structure Dispatcher where
  simplexDim : Nat

/-- `Dispatcher::new` builds the recursion template for the ambient
dimension (3 for `Vec3`). -/
def Dispatcher.new : Dispatcher :=
  { simplexDim := 3 }

/-- `Dispatcher::dispatch`: an (RB, RB) pair gets a fresh `GeomGeom`
workspace over the two bodies' geometries; any other combination gets
`Unsuported`. -/
def Dispatcher.dispatch (_self : Dispatcher) (a b : BodyPtr) : PairwiseDetector :=
  match a.body, b.body with
  | .RB rb1, .RB rb2 => .GG (GeomGeom.new rb1.geom rb2.geom)
  | _, _ => .Unsuported

/-- `Dispatcher::is_valid`: identical references are rejected; an (RB, RB)
pair is valid when at least one body can move; every other combination is
valid. -/
def Dispatcher.is_valid (_self : Dispatcher) (a b : BodyPtr) : Bool :=
  if ref_eq a b then
    false
  else
    match a.body, b.body with
    | .RB ra, .RB rb => ra.can_move || rb.can_move
    | _, _ => true

/-- The constraints emitted by detectors: contact constraints
`RBRB(body_a, body_b, contact)` and joint constraints (opaque payloads
here; the joint manager is not under `src/`). -/
inductive Constraint where
  | RBRB (b1 b2 : BodyPtr) (c : Contact)
  | BallInSocket (j : Nat)
  | Fixed (j : Nat)
deriving DecidableEq

/-- One entry of the broad-phase pair cache: the two body handles and the
pairwise detector state owned by the entry. -/
structure PairEntry where
  b1 : BodyPtr
  b2 : BodyPtr
  det : PairwiseDetector
deriving DecidableEq

/-- Whether a pair entry carries a supported (GG) narrow-phase workspace. -/
def PairEntry.supported (p : PairEntry) : Bool :=
  match p.det with
  | .GG _ => true
  | .Unsuported => false

/-- Modelled from the spec: the broad-phase tree-maintenance calls the
detector may issue (`add`, `remove`, `update`), recorded as an
operation log. -/
inductive BFOp where
  | addB (o : BodyPtr)
  | removeB (o : BodyPtr)
  | updateB
deriving DecidableEq

/-- Modelled from the spec: the broad-phase state the detector observes:
the tree-maintenance call log and the current proximity pair cache, which
`for_each_pair_mut` iterates in order. -/
structure BFState where
  ops : List BFOp
  pairs : List PairEntry
deriving DecidableEq

/-- The bodies-bodies detector state: the `update_bf` ownership flag
(the broad-phase handle itself is threaded explicitly). -/
structure BodiesBodies where
  update_bf : Bool
deriving DecidableEq

/-- Modelled from the spec: the signal bus channels the detector
subscribes to, as ordered lists of subscriber ids. -/
structure SignalEmiter where
  activatedHandlers : List Nat
  deactivatedHandlers : List Nat
deriving DecidableEq

/-- `add_body_activated_handler(id, f)`: appends the subscriber in
registration order. -/
def SignalEmiter.add_body_activated_handler (em : SignalEmiter) (id : Nat) : SignalEmiter :=
  { em with activatedHandlers := em.activatedHandlers ++ [id] }

/-- `add_body_deactivated_handler(id, f)`: appends the subscriber in
registration order. -/
def SignalEmiter.add_body_deactivated_handler (em : SignalEmiter) (id : Nat) : SignalEmiter :=
  { em with deactivatedHandlers := em.deactivatedHandlers ++ [id] }

/-- `BodiesBodies::new(events, bf, update_bf)`: records the flag and
subscribes one body-activated and one body-deactivated handler under the
detector's own address. Returns the detector and the updated bus. -/
def BodiesBodies.new (events : SignalEmiter) (update_bf : Bool) (selfAddr : Nat) :
    BodiesBodies × SignalEmiter :=
  let res : BodiesBodies := { update_bf := update_bf }
  let ev1 := events.add_body_activated_handler selfAddr
  let ev2 := ev1.add_body_deactivated_handler selfAddr
  (res, ev2)

/-- `Detector::add`: forwards the body to the broad phase only when
`update_bf` is set. -/
def BodiesBodies.add (self : BodiesBodies) (ops : List BFOp) (o : BodyPtr) : List BFOp :=
  if self.update_bf then ops ++ [BFOp.addB o] else ops

/-- `Detector::remove`: forwards the body to the broad phase only when
`update_bf` is set. -/
def BodiesBodies.remove (self : BodiesBodies) (ops : List BFOp) (o : BodyPtr) : List BFOp :=
  if self.update_bf then ops ++ [BFOp.removeB o] else ops

/-- One pair of the `for_each_pair_mut` loop of `Detector::update`: a GG
entry has both bodies resolved to rigid bodies (fatal on a soft body) and
its workspace updated with their current transforms and geometries; an
`Unsuported` entry is left untouched. -/
def updatePair (narrow : NarrowUpdate) (p : PairEntry) : Option PairEntry :=
  match p.det with
  | .GG d => do
      let rb1 ← p.b1.body.to_rigid_body_or_fail
      let rb2 ← p.b2.body.to_rigid_body_or_fail
      some { p with det := .GG (narrow rb1.transform rb1.geom rb2.transform rb2.geom d) }
  | .Unsuported => some p

/-- The `for_each_pair_mut` loop of `Detector::update` over the whole pair
cache. -/
def updateLoop (narrow : NarrowUpdate) : List PairEntry → Option (List PairEntry)
  | [] => some []
  | p :: ps => do
      let p' ← updatePair narrow p
      let ps' ← updateLoop narrow ps
      some (p' :: ps')

/-- `Detector::update`: refreshes the broad phase first when `update_bf`
is set, then runs the narrow-phase update on every GG pair of the cache. -/
def BodiesBodies.update (self : BodiesBodies) (narrow : NarrowUpdate) (bf : BFState) :
    Option BFState := do
  let bf1 := if self.update_bf then { bf with ops := bf.ops ++ [BFOp.updateB] } else bf
  let ps ← updateLoop narrow bf1.pairs
  some { bf1 with pairs := ps }

/-- The `for_each_pair_mut` loop of `Detector::interferences`: each GG
entry collects its current contacts into a (cleared) collector and pushes
one `RBRB(b1, b2, c)` per contact onto `out`; `Unsuported` entries are
skipped. -/
def interferencesLoop : List PairEntry → List Constraint → List Constraint
  | [], out => out
  | p :: ps, out =>
    match p.det with
    | .GG d =>
        let collector := GeomGeom.colls d []
        interferencesLoop ps (out ++ collector.map (fun c => Constraint.RBRB p.b1 p.b2 c))
    | .Unsuported => interferencesLoop ps out

/-- The loop of the body-activated handler (`BodiesBodies::activate`):
the broad phase re-emits the woken body's current pairs; each GG entry has
its workspace updated with the bodies' current transforms (fatal on a soft
body), then its contacts pushed as `RBRB` constraints; `Unsuported`
entries are skipped. Returns the grown `out` and the mutated pair
states. -/
def activateLoop (narrow : NarrowUpdate) :
    List PairEntry → List Constraint → Option (List Constraint × List PairEntry)
  | [], out => some (out, [])
  | p :: ps, out =>
    match p.det with
    | .GG d =>
      match p.b1.body.to_rigid_body_or_fail, p.b2.body.to_rigid_body_or_fail with
      | some rb1, some rb2 =>
        let d' := narrow rb1.transform rb1.geom rb2.transform rb2.geom d
        let collector := GeomGeom.colls d' []
        let out' := out ++ collector.map (fun c => Constraint.RBRB p.b1 p.b2 c)
        (activateLoop narrow ps out').map
          (fun r => (r.1, { p with det := .GG d' } :: r.2))
      | _, _ => none
    | .Unsuported =>
      (activateLoop narrow ps out).map (fun r => (r.1, p :: r.2))

/-- `BodiesBodies::interferences_with_ray`: for each candidate body
returned by the broad-phase ray query, in order, a rigid body is pushed
with the `t` of its own shape ray cast when that cast hits, and skipped
when it misses; a soft body halts fatally ("Not yet implemented."). -/
def interferences_with_ray (toi : ToiFn) (bodies : List BodyPtr) (ray : RayId)
    (out : List (BodyPtr × Scalar)) : Option (List (BodyPtr × Scalar)) :=
  match bodies with
  | [] => some out
  | b :: bs =>
    match b.body with
    | .RB rb =>
      match toi rb.geom rb.transform ray with
      | none => interferences_with_ray toi bs ray out
      | some t => interferences_with_ray toi bs ray (out ++ [(b, t)])
    | .SB _ => none

/-- The pipeline parameters the shipped 3D primitives demo is constructed
with (`examples/primitives3d.rs`, `primitives_3d`). -/
structure DemoConfig where
  dbvtMargin : Scalar
  ccdUpdateBF : Bool
  detectorUpdateBF : Bool
  ccdBroadPhaseAddr : Nat
  detectorBroadPhaseAddr : Nat
  wakeThreshold : Scalar
  sleepThreshold : Scalar
  restitutionThreshold : Scalar
  baumgarteContact : Scalar
  baumgarteJoint : Scalar
  baumgartePenetration : Scalar
  solverFourthArg : Scalar
  velocityIterations : Nat
  positionIterations : Nat
deriving DecidableEq

/-- Transcription of `primitives_3d`: one `DBVTBroadPhase` (a single
allocation, address 0) built with margin `0.08`; the CCD clamper over it
with flag `true`; the detector over it with flag `false`; the island
manager with thresholds `1.0` and `0.01`; the solver with
`(0.1, VelocityAndPosition(0.2, 0.2, 0.08), 1.0, 10, 10)`. -/
def primitives_3d_config : DemoConfig :=
  { dbvtMargin := 0.08
    ccdUpdateBF := true
    detectorUpdateBF := false
    ccdBroadPhaseAddr := 0
    detectorBroadPhaseAddr := 0
    wakeThreshold := 1.0
    sleepThreshold := 0.01
    restitutionThreshold := 0.1
    baumgarteContact := 0.2
    baumgarteJoint := 0.2
    baumgartePenetration := 0.08
    solverFourthArg := 1.0
    velocityIterations := 10
    positionIterations := 10 }

/-- Resolving a body to a rigid body succeeds with `rb` exactly when the
body is `RB rb`. -/
theorem to_rigid_body_or_fail_eq_some (b : Body) (rb : RigidBody) :
    b.to_rigid_body_or_fail = some rb ↔ b = Body.RB rb := by
  cases b <;> simp [Body.to_rigid_body_or_fail]

/-- The per-pair relation established by the narrow-phase update sweep:
`Unsuported` entries are untouched; a GG entry over rigid bodies gets its
workspace recomputed from their current transforms and geometries. -/
def UpdatedPairRel (narrow : NarrowUpdate) (p q : PairEntry) : Prop :=
  (p.det = PairwiseDetector.Unsuported → q = p) ∧
  (∀ d rb1 rb2, p.det = PairwiseDetector.GG d →
    p.b1.body = Body.RB rb1 → p.b2.body = Body.RB rb2 →
    q = { p with det := PairwiseDetector.GG (narrow rb1.transform rb1.geom rb2.transform rb2.geom d) })

/-- The narrow-phase sweep of `update` succeeds when every GG pair holds
two rigid bodies, and relates input to output pairs pointwise by
`UpdatedPairRel`. -/
theorem updateLoop_sound (narrow : NarrowUpdate) (pairs : List PairEntry)
    (h : ∀ p ∈ pairs, p.supported = true →
      (p.b1.body.to_rigid_body_or_fail).isSome = true ∧
      (p.b2.body.to_rigid_body_or_fail).isSome = true) :
    ∃ ps', updateLoop narrow pairs = some ps' ∧
      List.Forall₂ (UpdatedPairRel narrow) pairs ps' := by
  induction pairs with
  | nil => exact ⟨[], rfl, List.Forall₂.nil⟩
  | cons p ps ih =>
    obtain ⟨ps', hps', hrel⟩ := ih (fun q hq => h q (List.mem_cons_of_mem _ hq))
    cases hd : p.det with
    | GG d =>
      have hp := h p (List.mem_cons_self _ _) (by simp [PairEntry.supported, hd])
      obtain ⟨rb1, h1⟩ := Option.isSome_iff_exists.mp hp.1
      obtain ⟨rb2, h2⟩ := Option.isSome_iff_exists.mp hp.2
      refine ⟨{ p with det := PairwiseDetector.GG (narrow rb1.transform rb1.geom rb2.transform rb2.geom d) } :: ps',
        by simp [updateLoop, updatePair, hd, h1, h2, hps'], ?_⟩
      refine List.Forall₂.cons ⟨fun hu => by simp [hd] at hu, ?_⟩ hrel
      intro d' rb1' rb2' hdet h1' h2'
      rw [hd] at hdet
      cases hdet
      have e1 : rb1' = rb1 := by
        have := (to_rigid_body_or_fail_eq_some _ _).mpr h1'
        rw [h1] at this
        exact (Option.some_inj.mp this).symm
      have e2 : rb2' = rb2 := by
        have := (to_rigid_body_or_fail_eq_some _ _).mpr h2'
        rw [h2] at this
        exact (Option.some_inj.mp this).symm
      rw [e1, e2]
    | Unsuported =>
      refine ⟨p :: ps', by simp [updateLoop, updatePair, hd, hps'], ?_⟩
      refine List.Forall₂.cons ⟨fun _ => rfl, ?_⟩ hrel
      intro d' rb1' rb2' hdet h1' h2'
      rw [hd] at hdet
      cases hdet

/-- C4: `update` never fails when each GG pair of the cache holds two
rigid bodies; it recomputes each GG workspace from the two rigid bodies'
current transforms and geometries and leaves each `Unsuported` entry
untouched, performing no narrow-phase work on it. -/
theorem update_runs_narrow_phase_on_GG_pairs (self : BodiesBodies)
    (narrow : NarrowUpdate) (bf : BFState)
    (h : ∀ p ∈ bf.pairs, p.supported = true →
      (p.b1.body.to_rigid_body_or_fail).isSome = true ∧
      (p.b2.body.to_rigid_body_or_fail).isSome = true) :
    ∃ st', self.update narrow bf = some st' ∧
      List.Forall₂ (UpdatedPairRel narrow) bf.pairs st'.pairs := by
  obtain ⟨ps', hps', hrel⟩ := updateLoop_sound narrow bf.pairs h
  cases hu : self.update_bf
  · exact ⟨⟨bf.ops, ps'⟩, by simp [BodiesBodies.update, hu, hps'], hrel⟩
  · exact ⟨⟨bf.ops ++ [BFOp.updateB], ps'⟩, by simp [BodiesBodies.update, hu, hps'], hrel⟩

/-- Witness for C4: a cache holding one rigid-rigid GG pair and one
`Unsuported` pair is updated without failure. -/
theorem update_runs_narrow_phase_on_GG_pairs_witness :
    ∃ st', BodiesBodies.update ⟨false⟩ (fun _ _ _ _ d => d)
        ⟨[], [⟨⟨0, Body.RB ⟨0, 0, BodyKind.Dynamic⟩⟩, ⟨1, Body.RB ⟨1, 1, BodyKind.Static⟩⟩,
               PairwiseDetector.GG (GeomGeom.new 0 1)⟩,
              ⟨⟨0, Body.RB ⟨0, 0, BodyKind.Dynamic⟩⟩, ⟨2, Body.SB 0⟩,
               PairwiseDetector.Unsuported⟩]⟩ = some st' ∧
      List.Forall₂ (UpdatedPairRel (fun _ _ _ _ d => d))
        [⟨⟨0, Body.RB ⟨0, 0, BodyKind.Dynamic⟩⟩, ⟨1, Body.RB ⟨1, 1, BodyKind.Static⟩⟩,
          PairwiseDetector.GG (GeomGeom.new 0 1)⟩,
         ⟨⟨0, Body.RB ⟨0, 0, BodyKind.Dynamic⟩⟩, ⟨2, Body.SB 0⟩,
          PairwiseDetector.Unsuported⟩] st'.pairs :=
  update_runs_narrow_phase_on_GG_pairs ⟨false⟩ (fun _ _ _ _ d => d) _ (by decide)

/-- C1: the dispatcher's `dispatch` returns a supported GG narrow-phase
workspace if and only if both bodies are rigid bodies; every other
combination yields the `Unsuported` marker. -/
theorem dispatch_GG_iff_both_rigid (disp : Dispatcher) (a b : BodyPtr) :
    ((∃ d, disp.dispatch a b = PairwiseDetector.GG d) ↔
      ((∃ r1, a.body = Body.RB r1) ∧ (∃ r2, b.body = Body.RB r2))) ∧
    (disp.dispatch a b = PairwiseDetector.Unsuported ↔
      ¬((∃ r1, a.body = Body.RB r1) ∧ (∃ r2, b.body = Body.RB r2))) := by
  cases ha : a.body <;> cases hb : b.body <;>
    simp [Dispatcher.dispatch, ha, hb]

/-- C2: `is_valid` rejects a pair of identical references; a pair of
rigid bodies is valid exactly when at least one of them can move (so a
Static-Static pair is filtered before narrow-phase work); every other
body-kind combination is valid. -/
theorem is_valid_filters_static_and_self_pairs (disp : Dispatcher) (a b : BodyPtr) :
    (ref_eq a b = true → disp.is_valid a b = false) ∧
    (ref_eq a b = false →
      (∀ ra rb, a.body = Body.RB ra → b.body = Body.RB rb →
        disp.is_valid a b = (ra.can_move || rb.can_move)) ∧
      (¬((∃ r1, a.body = Body.RB r1) ∧ (∃ r2, b.body = Body.RB r2)) →
        disp.is_valid a b = true)) := by
  refine ⟨fun hr => ?_, fun hr => ⟨fun ra rb h1 h2 => ?_, fun hn => ?_⟩⟩
  · simp [Dispatcher.is_valid, hr]
  · simp [Dispatcher.is_valid, hr, h1, h2]
  · cases ha : a.body <;> cases hb : b.body <;>
      simp [Dispatcher.is_valid, hr, ha, hb] <;>
      exact absurd ⟨⟨_, ha⟩, ⟨_, hb⟩⟩ hn

/-- Witness for C2: a Dynamic-Static rigid-body pair at distinct
addresses is valid because the first body can move. -/
theorem is_valid_filters_static_and_self_pairs_witness :
    Dispatcher.is_valid Dispatcher.new
        ⟨0, Body.RB ⟨0, 0, BodyKind.Dynamic⟩⟩ ⟨1, Body.RB ⟨1, 1, BodyKind.Static⟩⟩
      = (RigidBody.can_move ⟨0, 0, BodyKind.Dynamic⟩ ||
         RigidBody.can_move ⟨1, 1, BodyKind.Static⟩) :=
  ((is_valid_filters_static_and_self_pairs Dispatcher.new _ _).2 (by decide)).1 _ _ rfl rfl

/-- C3: `interferences` appends to `out`, pair-cache order preserved, one
`RBRB(b1, b2, c)` constraint per contact currently held by each GG pair;
`Unsuported` pairs contribute nothing and the prior contents of `out` are
kept intact in front. -/
theorem interferences_appends_GG_contacts (pairs : List PairEntry) (out : List Constraint) :
    interferencesLoop pairs out =
      out ++ pairs.flatMap (fun p =>
        match p.det with
        | .GG d => d.contacts.map (fun c => Constraint.RBRB p.b1 p.b2 c)
        | .Unsuported => []) := by
  induction pairs generalizing out with
  | nil => simp [interferencesLoop]
  | cons p ps ih =>
    cases hd : p.det with
    | GG d => simp [interferencesLoop, hd, ih, GeomGeom.colls]
    | Unsuported => simp [interferencesLoop, hd, ih]

/-- C9: `interferences_with_ray` succeeds exactly when every candidate
returned by the broad-phase ray query is a rigid body; any soft body
among the candidates makes the call fail fatally. -/
theorem ray_query_total_iff_all_rigid (toi : ToiFn) (bodies : List BodyPtr)
    (ray : RayId) (out : List (BodyPtr × Scalar)) :
    (interferences_with_ray toi bodies ray out).isSome = true ↔
      ∀ b ∈ bodies, ∃ rb, b.body = Body.RB rb := by
  induction bodies generalizing out with
  | nil => simp [interferences_with_ray]
  | cons b bs ih =>
    cases hb : b.body with
    | RB rb =>
      cases ht : toi rb.geom rb.transform ray with
      | none => simp [interferences_with_ray, hb, ht, ih]
      | some t => simp [interferences_with_ray, hb, ht, ih]
    | SB sb => simp [interferences_with_ray, hb]

/-- C5: when every candidate returned by the broad-phase ray query is a
rigid body, `interferences_with_ray` appends exactly, in order, one
`(body, t)` per candidate whose own shape ray cast at its current
transform hits with scalar `t`; candidates whose shape ray cast returns
`None` are omitted. The reported `t` is thus exactly the direct shape
ray-cast value. -/
theorem ray_interferences_match_shape_raycast (toi : ToiFn) (bodies : List BodyPtr)
    (ray : RayId) (out : List (BodyPtr × Scalar))
    (h : ∀ b ∈ bodies, (b.body.to_rigid_body_or_fail).isSome = true) :
    interferences_with_ray toi bodies ray out =
      some (out ++ bodies.filterMap (fun b =>
        match b.body with
        | Body.RB rb => (toi rb.geom rb.transform ray).map (fun t => (b, t))
        | Body.SB _ => none)) := by
  induction bodies generalizing out with
  | nil => simp [interferences_with_ray]
  | cons b bs ih =>
    have hb1 := h b (List.mem_cons_self _ _)
    have hrest : ∀ q ∈ bs, (q.body.to_rigid_body_or_fail).isSome = true :=
      fun q hq => h q (List.mem_cons_of_mem _ hq)
    cases hb : b.body with
    | RB rb =>
      cases ht : toi rb.geom rb.transform ray with
      | none => simp [interferences_with_ray, hb, ht, ih _ hrest]
      | some t => simp [interferences_with_ray, hb, ht, ih _ hrest]
    | SB sb => simp [Body.to_rigid_body_or_fail, hb] at hb1

/-- Witness for C5: a single rigid-body candidate whose shape ray cast
reports `t = 4` is pushed with exactly that scalar. -/
theorem ray_interferences_match_shape_raycast_witness :
    interferences_with_ray (fun _ _ _ => some (4 : Scalar))
        [⟨0, Body.RB ⟨0, 0, BodyKind.Dynamic⟩⟩] 0 [] =
      some ([] ++ [(⟨0, Body.RB ⟨0, 0, BodyKind.Dynamic⟩⟩ : BodyPtr)].filterMap (fun b =>
        match b.body with
        | Body.RB rb => ((fun _ _ _ => some (4 : Scalar)) rb.geom rb.transform 0).map
            (fun t => (b, t))
        | Body.SB _ => none)) :=
  ray_interferences_match_shape_raycast (fun _ _ _ => some (4 : Scalar)) _ 0 [] (by decide)

/-- C6: with `update_bf = false`, `add`, `remove` and `update` leave the
broad-phase tree-maintenance log unchanged; with `update_bf = true`,
`add` and `remove` forward the body and `update` first refreshes the
broad phase. The shipped demo builds the detector with `false` and the
CCD clamper, over the same broad-phase allocation, with `true`. -/
theorem update_bf_controls_broad_phase (self : BodiesBodies) (ops : List BFOp)
    (o : BodyPtr) (narrow : NarrowUpdate) (bf : BFState) :
    (self.update_bf = false →
      self.add ops o = ops ∧ self.remove ops o = ops ∧
      (∀ st', self.update narrow bf = some st' → st'.ops = bf.ops)) ∧
    (self.update_bf = true →
      self.add ops o = ops ++ [BFOp.addB o] ∧
      self.remove ops o = ops ++ [BFOp.removeB o] ∧
      (∀ st', self.update narrow bf = some st' → st'.ops = bf.ops ++ [BFOp.updateB])) ∧
    (primitives_3d_config.detectorUpdateBF = false ∧
     primitives_3d_config.ccdUpdateBF = true ∧
     primitives_3d_config.detectorBroadPhaseAddr = primitives_3d_config.ccdBroadPhaseAddr) := by
  refine ⟨fun hu => ⟨?_, ?_, fun st' hst => ?_⟩, fun hu => ⟨?_, ?_, fun st' hst => ?_⟩,
    rfl, rfl, rfl⟩
  · simp [BodiesBodies.add, hu]
  · simp [BodiesBodies.remove, hu]
  · simp only [BodiesBodies.update, hu, if_false, Option.bind_eq_bind, Option.bind_eq_some] at hst
    obtain ⟨ps, _, hst⟩ := hst
    cases hst
    rfl
  · simp [BodiesBodies.add, hu]
  · simp [BodiesBodies.remove, hu]
  · simp only [BodiesBodies.update, hu, if_true, Option.bind_eq_bind, Option.bind_eq_some] at hst
    obtain ⟨ps, _, hst⟩ := hst
    cases hst
    rfl

/-- Witness for C6: a detector built with `update_bf = false` leaves the
log alone on `add`. -/
theorem update_bf_controls_broad_phase_witness :
    BodiesBodies.add ⟨false⟩ [] ⟨0, Body.RB ⟨0, 0, BodyKind.Dynamic⟩⟩ = [] :=
  ((update_bf_controls_broad_phase ⟨false⟩ [] ⟨0, Body.RB ⟨0, 0, BodyKind.Dynamic⟩⟩
    (fun _ _ _ _ d => d) ⟨[], []⟩).1 rfl).1

/-- C7: `new` subscribes one body-activated and one body-deactivated
handler on the signal bus; and on activation, processing the re-emitted
pairs (narrow-phase update on current transforms, then contact
collection) pushes exactly the constraints that `update()` followed by
`interferences()` would produce on those pairs, mutating the pair states
the same way. -/
theorem activation_matches_update_then_interferences :
    (∀ (em : SignalEmiter) (ubf : Bool) (addr : Nat),
      (BodiesBodies.new em ubf addr).2.activatedHandlers = em.activatedHandlers ++ [addr] ∧
      (BodiesBodies.new em ubf addr).2.deactivatedHandlers = em.deactivatedHandlers ++ [addr]) ∧
    (∀ (narrow : NarrowUpdate) (pairs : List PairEntry) (out : List Constraint),
      (∀ p ∈ pairs, p.supported = true →
        (p.b1.body.to_rigid_body_or_fail).isSome = true ∧
        (p.b2.body.to_rigid_body_or_fail).isSome = true) →
      ∃ ps', updateLoop narrow pairs = some ps' ∧
        activateLoop narrow pairs out = some (interferencesLoop ps' out, ps')) := by
  constructor
  · intro em ubf addr
    exact ⟨rfl, rfl⟩
  · intro narrow pairs
    induction pairs with
    | nil => exact fun out h => ⟨[], rfl, rfl⟩
    | cons p ps ih =>
      intro out h
      have hrest : ∀ q ∈ ps, q.supported = true →
          (q.b1.body.to_rigid_body_or_fail).isSome = true ∧
          (q.b2.body.to_rigid_body_or_fail).isSome = true :=
        fun q hq => h q (List.mem_cons_of_mem _ hq)
      cases hd : p.det with
      | GG d =>
        have hp := h p (List.mem_cons_self _ _) (by simp [PairEntry.supported, hd])
        obtain ⟨rb1, h1⟩ := Option.isSome_iff_exists.mp hp.1
        obtain ⟨rb2, h2⟩ := Option.isSome_iff_exists.mp hp.2
        obtain ⟨ts, hts, hact⟩ := ih (out ++ (GeomGeom.colls
          (narrow rb1.transform rb1.geom rb2.transform rb2.geom d) []).map
            (fun c => Constraint.RBRB p.b1 p.b2 c)) hrest
        refine ⟨{ p with det := PairwiseDetector.GG (narrow rb1.transform rb1.geom rb2.transform rb2.geom d) } :: ts,
          by simp [updateLoop, updatePair, hd, h1, h2, hts], ?_⟩
        simp [activateLoop, hd, h1, h2, hact, interferencesLoop]
      | Unsuported =>
        obtain ⟨ts, hts, hact⟩ := ih out hrest
        refine ⟨p :: ts, by simp [updateLoop, updatePair, hd, hts], ?_⟩
        simp [activateLoop, hd, hact, interferencesLoop]

/-- Witness for C7: on a cache holding one rigid-rigid GG pair and one
`Unsuported` pair, the activation sweep produces exactly the constraints
of update-then-interferences. -/
theorem activation_matches_update_then_interferences_witness :
    ∃ ps', updateLoop (fun _ _ _ _ d => d)
        [⟨⟨0, Body.RB ⟨0, 0, BodyKind.Dynamic⟩⟩, ⟨1, Body.RB ⟨1, 1, BodyKind.Static⟩⟩,
          PairwiseDetector.GG ⟨0, 1, [7]⟩⟩,
         ⟨⟨0, Body.RB ⟨0, 0, BodyKind.Dynamic⟩⟩, ⟨2, Body.SB 0⟩,
          PairwiseDetector.Unsuported⟩] = some ps' ∧
      activateLoop (fun _ _ _ _ d => d)
        [⟨⟨0, Body.RB ⟨0, 0, BodyKind.Dynamic⟩⟩, ⟨1, Body.RB ⟨1, 1, BodyKind.Static⟩⟩,
          PairwiseDetector.GG ⟨0, 1, [7]⟩⟩,
         ⟨⟨0, Body.RB ⟨0, 0, BodyKind.Dynamic⟩⟩, ⟨2, Body.SB 0⟩,
          PairwiseDetector.Unsuported⟩] [] = some (interferencesLoop ps' [], ps') :=
  activation_matches_update_then_interferences.2 (fun _ _ _ _ d => d) _ [] (by decide)

/-- C8: the shipped 3D primitives demo is configured with the spec's
shipped parameters: DBVT margin 0.08, wake threshold 1.0, sleep
threshold 0.01, restitution velocity threshold 0.1, Baumgarte factors
0.2 / 0.2 / 0.08 for contact / joint / penetration, and 10 velocity and
10 position iterations. -/
theorem primitives_3d_config_matches_spec :
    primitives_3d_config.dbvtMargin = 8/100 ∧
    primitives_3d_config.wakeThreshold = 1 ∧
    primitives_3d_config.sleepThreshold = 1/100 ∧
    primitives_3d_config.restitutionThreshold = 1/10 ∧
    primitives_3d_config.baumgarteContact = 2/10 ∧
    primitives_3d_config.baumgarteJoint = 2/10 ∧
    primitives_3d_config.baumgartePenetration = 8/100 ∧
    primitives_3d_config.velocityIterations = 10 ∧
    primitives_3d_config.positionIterations = 10 := by
  refine ⟨?_, ?_, ?_, ?_, ?_, ?_, ?_, ?_, ?_⟩ <;> norm_num [primitives_3d_config]

/-- C10: a GG detector state produced by the dispatcher implies both
bodies are rigid bodies, so `to_rigid_body_or_fail` succeeds on both and
neither the `update()` sweep nor the activation handler can reach the
failure branch on a dispatcher-built pair. -/
theorem GG_pairs_never_fail_rigid_cast (disp : Dispatcher) (a b : BodyPtr) :
    (∀ d, disp.dispatch a b = PairwiseDetector.GG d →
      (a.body.to_rigid_body_or_fail).isSome = true ∧
      (b.body.to_rigid_body_or_fail).isSome = true) ∧
    (∀ narrow : NarrowUpdate,
      (updatePair narrow ⟨a, b, disp.dispatch a b⟩).isSome = true) ∧
    (∀ (narrow : NarrowUpdate) (out : List Constraint),
      (activateLoop narrow [⟨a, b, disp.dispatch a b⟩] out).isSome = true) := by
  cases ha : a.body <;> cases hb : b.body <;>
    simp [Dispatcher.dispatch, updatePair, activateLoop, Body.to_rigid_body_or_fail, ha, hb]

/-- Witness for C10: a dispatcher-built GG pair over two rigid bodies has
both rigid-body casts succeed. -/
theorem GG_pairs_never_fail_rigid_cast_witness :
    ((Body.RB ⟨0, 0, BodyKind.Dynamic⟩).to_rigid_body_or_fail).isSome = true ∧
    ((Body.RB ⟨1, 1, BodyKind.Static⟩).to_rigid_body_or_fail).isSome = true :=
  (GG_pairs_never_fail_rigid_cast Dispatcher.new
      ⟨0, Body.RB ⟨0, 0, BodyKind.Dynamic⟩⟩ ⟨1, Body.RB ⟨1, 1, BodyKind.Static⟩⟩).1
    (GeomGeom.new 0 1) rfl

end NPhysics
